import Mathlib

/-!
Shallow embedding of `src/routes/auth.js`: passwordless email-link
authentication routes attached to an Express server.

The user-record storage is an external collaborator used through the contract
`get` (by id), `one` (find-one by filter), `create`, `save`, all
callback-completed.  We model the store as a list of user records plus a
fresh-id counter, and each storage call carries an explicit boolean fault flag
(`lookupErr`, `saveErr`, ...) standing for the `err` argument the collaborator
may pass to a callback.  A JavaScript `TypeError` raised inside a handler
(dereferencing `undefined`) is modelled by the `Outcome.crash` constructor.
The fresh uuid token generated by a handler is an explicit argument.
-/

namespace EmailAuth

/-- JSON values as the route handlers build them with object literals. -/
inductive Json where
  | null : Json
  | str : String → Json
  | num : Nat → Json
  | obj : List (String × Json) → Json
deriving Repr

/-- A user record, per the storage contract in the spec (§3) and the fields
`auth.js` reads and writes: `id`, `email`, `name`, `token`, `verified`. -/
structure User where
  id : Nat
  email : String
  name : Option String
  token : Option String
  verified : Bool
deriving Repr, DecidableEq

/-- The user store: records plus a counter supplying ids for `User.create`. -/
structure Db where
  users : List User
  nextId : Nat
deriving Repr, DecidableEq

/-- Storage call `User.get(id, cb)`: fetch a record by id. -/
def User.fetch (db : Db) (uid : Nat) : Option User :=
  db.users.find? fun v => v.id == uid

/-- Storage call `User.one({email: email}, cb)`: first record with the given email. -/
def User.oneByEmail (db : Db) (email : String) : Option User :=
  db.users.find? fun v => v.email == email

/-- Storage call `User.one({token: token}, cb)`: first record whose stored token equals the
given (non-null) value. -/
def User.oneByToken (db : Db) (tok : String) : Option User :=
  db.users.find? fun v => v.token == some tok

/-- Storage call `user.save(cb)`: persist a modified record, replacing the stored record(s)
with its id. -/
def Db.save (db : Db) (u : User) : Db :=
  { db with users := db.users.map fun v => if v.id == u.id then u else v }

/-- Storage call `User.create({email: email, token: token}, cb)`: append a fresh record;
`name` and `verified` are not supplied by `auth.js`. -/
def Db.create (db : Db) (email tok : String) : Db :=
  { users := db.users ++ [⟨db.nextId, email, none, some tok, false⟩],
    nextId := db.nextId + 1 }

/-- JavaScript string conversion of a possibly-undefined header value:
`"http://" + undefined` concatenates the text `undefined`. -/
def jsString : Option String → String
  | some s => s
  | none => "undefined"

def Json.ofOptStr : Option String → Json
  | some s => .str s
  | none => .null

/-- What a handler sends back. -/
inductive Response where
  | render : String → Response
  | redirect : String → Response
  | json : Json → Response
deriving Repr

/-- Either a response was produced, or the handler threw a `TypeError`. -/
inductive Outcome where
  | ok : Response → Outcome
  | crash : Outcome
deriving Repr

/-- The `{name, email}` projection exposed to rendering. -/
structure PublicUser where
  name : Option String
  email : String
deriving Repr, DecidableEq

/-- Result of the `res.locals` enrichment middleware (auth.js lines 83-97). -/
structure EnrichResult where
  localsUser : Option PublicUser
  nextCalled : Bool
deriving Repr, DecidableEq

/-- Middleware adding the session user to `res.locals` (auth.js lines 83-97):
no session user means `next()` at once; otherwise `User.get` runs, the locals
are populated only when a record comes back, and `next()` is called in every
branch of the callback.  `getErr` models the storage call erring (no record). -/
def enrichMiddleware (db : Db) (getErr : Bool) (sessionUser : Option Nat) :
    EnrichResult :=
  match sessionUser with
  | none => ⟨none, true⟩
  | some uid =>
    match (if getErr then none else User.fetch db uid) with
    | some u => ⟨some ⟨u.name, u.email⟩, true⟩
    | none => ⟨none, true⟩

/-- GET `{path}/session` (auth.js lines 105-124).  With a session user the
callback reads `user.name` and `user.email` without checking `err` or whether
`user` exists, so a missing record is a `TypeError` (`Outcome.crash`). -/
def sessionRoute (clientMaxAge : Nat) (csrfToken : String) (db : Db)
    (sessionUser : Option Nat) (getErr : Bool) : Outcome :=
  match sessionUser with
  | some uid =>
    match (if getErr then none else User.fetch db uid) with
    | some u =>
      .ok (.json (.obj
        [("user", .obj [("name", Json.ofOptStr u.name),
                        ("email", .str u.email)]),
         ("clientMaxAge", .num clientMaxAge),
         ("csrfToken", .str csrfToken)]))
    | none => .crash
  | none =>
    .ok (.json (.obj
      [("clientMaxAge", .num clientMaxAge),
       ("csrfToken", .str csrfToken)]))

/-- The outbound message handed to `nodemailer.sendMail`. -/
structure Mail where
  toAddr : String
  fromAddr : String
  subject : String
  text : String
deriving Repr, DecidableEq

/-- Everything observable about one POST `{path}/email/signin` request:
the response (or crash), the store after the storage callbacks ran, the mail
handed to the transport, the console output, and whether a storage callback
rethrew its error (`if (err) throw err`). -/
structure SigninResult where
  response : Outcome
  db : Db
  mail : Option Mail
  logs : List String
  asyncThrown : Bool
deriving Repr

/-- JavaScript `String.prototype.trim`: strip leading and trailing
whitespace. -/
def jsTrim (s : String) : String :=
  ⟨((s.data.dropWhile Char.isWhitespace).reverse.dropWhile
      Char.isWhitespace).reverse⟩

/-- Blankness check `req.body.email || null` followed by `!email || email.trim() == ''`. -/
def emailBlank : Option String → Bool
  | none => true
  | some e => e == "" || jsTrim e == ""

/-- Verification URL
`(serverUrl || "http://"+req.headers.host) + path + '/email/signin/' + token`
(auth.js line 134).  Concatenation with a missing host does not throw in
JavaScript; it yields the text `undefined`. -/
def verificationUrl (serverUrl host : Option String) (path tok : String) :
    String :=
  (match serverUrl with
   | some u => u
   | none => "http://" ++ jsString host) ++ path ++ "/email/signin/" ++ tok

/-- POST `{path}/email/signin` (auth.js lines 127-168).  A blank email
re-renders the sign-in page.  Otherwise `User.one({email})` is issued and its
callback overwrites the token of a found record (or creates one), rethrowing
any save/create error; the sendMail options are then built — reading
`req.headers.host.split(":")[0]` for the from address, a `TypeError` when the
`Host` header is absent — and the check-email page is rendered.  A mail error
only produces two console logs.  The storage callback still runs when the
handler crashes building the mail, since `User.one` was issued first. -/
def signinHandler (path pages : String) (serverUrl : Option String)
    (tok : String) (db : Db) (emailField host : Option String)
    (lookupErr saveErr createErr mailErr : Bool) : SigninResult :=
  if emailBlank emailField then
    ⟨.ok (.render (pages ++ "/signin")), db, none, [], false⟩
  else
    let email := emailField.getD ""
    let url := verificationUrl serverUrl host path tok
    let found := if lookupErr then none else User.oneByEmail db email
    let db1 := match found with
      | some u => if saveErr then db else db.save { u with token := some tok }
      | none => if createErr then db else db.create email tok
    let thrown := match found with
      | some _ => saveErr
      | none => createErr
    match host with
    | none => ⟨.crash, db1, none, [], thrown⟩
    | some h =>
      ⟨.ok (.render (pages ++ "/check-email")), db1,
       some ⟨email, "noreply@" ++ ((h.splitOn ":").headD ""), "Sign in link",
             "Use the link below to sign in:\n\n" ++ url ++ "\n\n"⟩,
       (if mailErr then
          ["Generated sign in link " ++ url ++ " for " ++ email,
           "Error sending email to " ++ email]
        else []),
       thrown⟩

/-- Result of GET `{path}/email/signin/:token`. -/
structure RedeemResult where
  response : Response
  db : Db
  sessionUser : Option Nat
deriving Repr

/-- GET `{path}/email/signin/:token` (auth.js lines 170-189).  A falsy token
parameter redirects to the sign-in page; otherwise `User.one({token})` either
finds a record — whose token is nulled and `verified` set before `save`, the
save callback ignoring its error and binding `req.session.user = user.id`
before redirecting to `{path}/valid` — or redirects to `{path}/invalid`. -/
def redeemHandler (path : String) (db : Db) (sessionUser : Option Nat)
    (tokenParam : Option String) (lookupErr saveErr : Bool) : RedeemResult :=
  match tokenParam with
  | none => ⟨.redirect (path ++ "/signin"), db, sessionUser⟩
  | some t =>
    if t == "" then ⟨.redirect (path ++ "/signin"), db, sessionUser⟩
    else
      match (if lookupErr then none else User.oneByToken db t) with
      | some u =>
        let updated := { u with token := none, verified := true }
        ⟨.redirect (path ++ "/valid"),
         (if saveErr then db else db.save updated),
         some updated.id⟩
      | none => ⟨.redirect (path ++ "/invalid"), db, sessionUser⟩

/-- POST `{path}/signout` (auth.js lines 191-196): `delete req.session.user`
when present, then redirect to the site root. -/
def signoutRoute (sessionUser : Option Nat) : Option Nat × Response :=
  (match sessionUser with
   | some _ => none
   | none => sessionUser,
   Response.redirect "/")

/-! ### Concrete data used by witnesses -/

def userA : User := ⟨1, "alice@example.com", none, some "tok-1", false⟩

def dbA : Db := ⟨[userA], 2⟩

def dbEmpty : Db := ⟨[], 5⟩


/-! ### Helper lemmas about the store operations -/

/-- After `save`, looking the record up by its id yields the saved record,
provided some stored record carried that id. -/
lemma find_id_after_save (l : List User) (w : User)
    (hmem : ∃ v ∈ l, v.id = w.id) :
    (l.map fun v => if v.id == w.id then w else v).find?
      (fun v => v.id == w.id) = some w := by
  induction l with
  | nil =>
    rcases hmem with ⟨v, hv, _⟩
    exact absurd hv (List.not_mem_nil v)
  | cons a l ih =>
    rw [List.map_cons]
    by_cases ha : a.id = w.id
    · rw [if_pos (by simp [ha])]
      exact List.find?_cons_of_pos _ (by simp)
    · rw [if_neg (by simp [ha]), List.find?_cons_of_neg _ (by simp [ha])]
      apply ih
      rcases hmem with ⟨v, hv, hid⟩
      rcases List.mem_cons.mp hv with rfl | hv2
      · exact absurd hid ha
      · exact ⟨v, hv2, hid⟩

/-- After saving a record whose token is not `t`, no stored record carries
token `t` any more, provided only records with the saved record's id did. -/
lemma find_token_after_save (l : List User) (t : String) (w : User)
    (hw : w.token ≠ some t)
    (huniq : ∀ v ∈ l, v.token = some t → v.id = w.id) :
    (l.map fun v => if v.id == w.id then w else v).find?
      (fun v => v.token == some t) = none := by
  rw [List.find?_eq_none]
  intro x hx
  rcases List.mem_map.mp hx with ⟨v, hv, rfl⟩
  by_cases hid : v.id = w.id
  · simp [hid, hw]
  · simp only [if_neg (by simp [hid] : ¬(v.id == w.id) = true)]
    simp only [beq_iff_eq, ne_eq]
    intro hvt
    exact hid (huniq v hv hvt)

/-- The saved record is a member of the store after `save`, as soon as some
record carried its id. -/
lemma mem_after_save (l : List User) (u w : User) (hmem : u ∈ l)
    (hid : u.id = w.id) :
    w ∈ l.map fun v => if v.id == w.id then w else v :=
  List.mem_map.mpr ⟨u, hmem, by simp [hid]⟩

/-- Reduction of the redemption handler when the lookup succeeds. -/
lemma redeem_found (path : String) (db : Db) (s : Option Nat) (t : String)
    (u : User) (saveErr : Bool) (ht : t ≠ "")
    (hfind : User.oneByToken db t = some u) :
    redeemHandler path db s (some t) false saveErr =
      ⟨Response.redirect (path ++ "/valid"),
       (if saveErr then db
        else db.save { u with token := none, verified := true }),
       some u.id⟩ := by
  have hne : (t == "") = false := by
    cases h : (t == "") with
    | false => rfl
    | true => exact absurd (eq_of_beq h) ht
  simp [redeemHandler, hne, hfind]

/-- A non-blank email is neither the empty string nor blank after trimming. -/
lemma emailBlank_false (e : String) (hblank : jsTrim e ≠ "") :
    emailBlank (some e) = false := by
  have he : e ≠ "" := by
    intro h0
    subst h0
    exact hblank (by decide)
  have h1 : (e == "") = false := by
    cases h : (e == "") with
    | false => rfl
    | true => exact absurd (eq_of_beq h) he
  have h2 : (jsTrim e == "") = false := by
    cases h : (jsTrim e == "") with
    | false => rfl
    | true => exact absurd (eq_of_beq h) hblank
  simp [emailBlank, h1, h2]

/-- The store a non-blank signin request leaves behind, spelt out: the found
record saved with the fresh token, or a fresh record created. -/
lemma signin_db_eq (path pages : String) (serverUrl : Option String)
    (tok : String) (db : Db) (e : String) (host : Option String)
    (mErr : Bool) (hb : emailBlank (some e) = false) :
    (signinHandler path pages serverUrl tok db (some e) host
        false false false mErr).db
      = (match User.oneByEmail db e with
         | some u => db.save { u with token := some tok }
         | none => db.create e tok) := by
  cases host <;> cases hf : User.oneByEmail db e <;>
    simp [signinHandler, hb, hf]

/-! ### Claim theorems -/

/-- Claim C1: a redemption request whose token matches the non-null stored
token of a user record nulls that user's token, sets `verified`, binds
`session.user` to the user's id, and redirects to `{base}/valid`. -/
theorem redeem_valid_token (path : String) (db : Db) (s : Option Nat)
    (t : String) (u : User) (ht : t ≠ "")
    (hfind : User.oneByToken db t = some u) :
    (redeemHandler path db s (some t) false false).response
        = Response.redirect (path ++ "/valid")
    ∧ (redeemHandler path db s (some t) false false).sessionUser = some u.id
    ∧ User.fetch (redeemHandler path db s (some t) false false).db u.id
        = some { u with token := none, verified := true } := by
  rw [redeem_found path db s t u false ht hfind]
  refine ⟨rfl, rfl, ?_⟩
  have humem : u ∈ db.users := List.mem_of_find?_eq_some hfind
  show User.fetch (db.save { u with token := none, verified := true }) u.id = _
  unfold User.fetch Db.save
  exact find_id_after_save db.users { u with token := none, verified := true }
    ⟨u, humem, rfl⟩

theorem redeem_valid_token_witness :
    (redeemHandler "/auth" dbA none (some "tok-1") false false).response
        = Response.redirect ("/auth" ++ "/valid")
    ∧ (redeemHandler "/auth" dbA none (some "tok-1") false false).sessionUser
        = some userA.id
    ∧ User.fetch (redeemHandler "/auth" dbA none (some "tok-1") false false).db
        userA.id = some { userA with token := none, verified := true } :=
  redeem_valid_token "/auth" dbA none "tok-1" userA (by decide) (by decide)

/-- Claim C2: once a token value has been redeemed (redirect to valid), the
store no longer holds it — it was nulled — so redeeming the identical value
again finds no user and redirects to `{base}/invalid`; here the stored token
values are assumed unique to their record, as fresh uuids are. -/
theorem redeem_replay_invalid (path : String) (db : Db) (s1 s2 : Option Nat)
    (t : String) (u : User) (ht : t ≠ "")
    (hfind : User.oneByToken db t = some u)
    (huniq : ∀ v ∈ db.users, v.token = some t → v.id = u.id) :
    (redeemHandler path db s1 (some t) false false).response
        = Response.redirect (path ++ "/valid")
    ∧ (redeemHandler path (redeemHandler path db s1 (some t) false false).db
         s2 (some t) false false).response
        = Response.redirect (path ++ "/invalid") := by
  rw [redeem_found path db s1 t u false ht hfind]
  refine ⟨rfl, ?_⟩
  have hne : (t == "") = false := by
    cases h : (t == "") with
    | false => rfl
    | true => exact absurd (eq_of_beq h) ht
  have hnone :
      User.oneByToken (db.save { u with token := none, verified := true }) t
        = none := by
    unfold User.oneByToken Db.save
    apply find_token_after_save
    · simp
    · exact huniq
  simp [redeemHandler, hne, hnone]

theorem redeem_replay_invalid_witness :
    (redeemHandler "/auth" dbA none (some "tok-1") false false).response
        = Response.redirect ("/auth" ++ "/valid")
    ∧ (redeemHandler "/auth"
         (redeemHandler "/auth" dbA none (some "tok-1") false false).db
         none (some "tok-1") false false).response
        = Response.redirect ("/auth" ++ "/invalid") :=
  redeem_replay_invalid "/auth" dbA none none "tok-1" userA (by decide)
    (by decide) (by decide)

/-- Claim C8: the redemption handler's `user.save` callback ignores its error
argument — the session is bound and the valid redirect sent even when the save
reporting the token-clearing fails. -/
theorem redeem_ignores_save_error (path : String) (db : Db) (s : Option Nat)
    (t : String) (u : User) (saveErr : Bool) (ht : t ≠ "")
    (hfind : User.oneByToken db t = some u) :
    (redeemHandler path db s (some t) false saveErr).response
        = Response.redirect (path ++ "/valid")
    ∧ (redeemHandler path db s (some t) false saveErr).sessionUser
        = some u.id := by
  rw [redeem_found path db s t u saveErr ht hfind]
  exact ⟨rfl, rfl⟩

theorem redeem_ignores_save_error_witness :
    (redeemHandler "/auth" dbA none (some "tok-1") false true).response
        = Response.redirect ("/auth" ++ "/valid")
    ∧ (redeemHandler "/auth" dbA none (some "tok-1") false true).sessionUser
        = some userA.id :=
  redeem_ignores_save_error "/auth" dbA none "tok-1" userA true (by decide)
    (by decide)

/-- Claim C3: a signin POST with a non-blank email leaves a user record with
that email holding a non-null token (overwriting a found record's token,
creating the record otherwise) and renders the check-email page, whether or
not the address pre-existed. -/
theorem signin_issues_token (path pages : String) (serverUrl : Option String)
    (tok : String) (db : Db) (e hostName : String) (mailErr : Bool)
    (hblank : jsTrim e ≠ "") :
    (signinHandler path pages serverUrl tok db (some e) (some hostName)
        false false false mailErr).response
      = Outcome.ok (Response.render (pages ++ "/check-email"))
    ∧ ∃ u ∈ (signinHandler path pages serverUrl tok db (some e) (some hostName)
          false false false mailErr).db.users,
        u.email = e ∧ u.token = some tok := by
  have hb := emailBlank_false e hblank
  refine ⟨by simp [signinHandler, hb], ?_⟩
  rw [signin_db_eq path pages serverUrl tok db e (some hostName) mailErr hb]
  cases hfound : User.oneByEmail db e with
  | none =>
    refine ⟨⟨db.nextId, e, none, some tok, false⟩, ?_, rfl, rfl⟩
    simp [Db.create]
  | some u0 =>
    have hm : u0 ∈ db.users := by
      unfold User.oneByEmail at hfound
      exact List.mem_of_find?_eq_some hfound
    have hemail : u0.email = e := by
      unfold User.oneByEmail at hfound
      have hp := List.find?_some hfound
      exact eq_of_beq hp
    exact ⟨{ u0 with token := some tok },
      mem_after_save db.users u0 _ hm rfl, by simp [hemail], rfl⟩

theorem signin_issues_token_witness :
    (signinHandler "/auth" "auth" none "tok-2" dbEmpty
        (some "bob@example.com") (some "example.com:3000")
        false false false false).response
      = Outcome.ok (Response.render ("auth" ++ "/check-email"))
    ∧ ∃ u ∈ (signinHandler "/auth" "auth" none "tok-2" dbEmpty
          (some "bob@example.com") (some "example.com:3000")
          false false false false).db.users,
        u.email = "bob@example.com" ∧ u.token = some "tok-2" :=
  signin_issues_token "/auth" "auth" none "tok-2" dbEmpty "bob@example.com"
    "example.com:3000" false (by decide)

/-- Claim C4: storage errors during lookup, save or create never change the
client's response — the check-email page renders regardless — and the only
console output the handler produces is the mail-error pair of logs, the first
of which notes the generated verification link. -/
theorem signin_hides_persistence_errors (path pages : String)
    (serverUrl : Option String) (tok : String) (db : Db) (e hostName : String)
    (lErr sErr cErr mErr : Bool) (hblank : jsTrim e ≠ "") :
    (signinHandler path pages serverUrl tok db (some e) (some hostName)
        lErr sErr cErr mErr).response
      = Outcome.ok (Response.render (pages ++ "/check-email"))
    ∧ (signinHandler path pages serverUrl tok db (some e) (some hostName)
        lErr sErr cErr mErr).logs
      = (if mErr then
          ["Generated sign in link "
             ++ verificationUrl serverUrl (some hostName) path tok
             ++ " for " ++ e,
           "Error sending email to " ++ e]
         else []) := by
  have hb := emailBlank_false e hblank
  constructor <;> simp [signinHandler, hb]

theorem signin_hides_persistence_errors_witness :
    (signinHandler "/auth" "auth" none "tok-3" dbA
        (some "alice@example.com") (some "example.com")
        true true true true).response
      = Outcome.ok (Response.render ("auth" ++ "/check-email"))
    ∧ (signinHandler "/auth" "auth" none "tok-3" dbA
        (some "alice@example.com") (some "example.com")
        true true true true).logs
      = (if true then
          ["Generated sign in link "
             ++ verificationUrl none (some "example.com") "/auth" "tok-3"
             ++ " for " ++ "alice@example.com",
           "Error sending email to " ++ "alice@example.com"]
         else []) :=
  signin_hides_persistence_errors "/auth" "auth" none "tok-3" dbA
    "alice@example.com" "example.com" true true true true (by decide)

/-- Claim C10: a signin POST with a non-blank email but no Host header throws
a `TypeError` building the from address from `req.headers.host` instead of
rendering the check-email page, whatever `serverUrl` is configured to. -/
theorem signin_missing_host_crashes (path pages : String)
    (serverUrl : Option String) (tok : String) (db : Db) (e : String)
    (lErr sErr cErr mErr : Bool) (hblank : jsTrim e ≠ "") :
    (signinHandler path pages serverUrl tok db (some e) none
        lErr sErr cErr mErr).response = Outcome.crash := by
  have hb := emailBlank_false e hblank
  simp [signinHandler, hb]

theorem signin_missing_host_crashes_witness :
    (signinHandler "/auth" "auth" (some "https://example.com") "tok-4" dbA
        (some "alice@example.com") none false false false false).response
      = Outcome.crash :=
  signin_missing_host_crashes "/auth" "auth" (some "https://example.com")
    "tok-4" dbA "alice@example.com" false false false false (by decide)

/-- Claim C5: the session endpoint answers an anonymous session with exactly
`{clientMaxAge, csrfToken}` and a signed-in session whose record is found with
a `user` object of exactly `{name, email}` — no other user field appears. -/
theorem session_route_shape (cma : Nat) (csrf : String) (db : Db) (uid : Nat)
    (u : User) (hget : User.fetch db uid = some u) :
    sessionRoute cma csrf db none false
      = Outcome.ok (Response.json (Json.obj
          [("clientMaxAge", Json.num cma), ("csrfToken", Json.str csrf)]))
    ∧ sessionRoute cma csrf db (some uid) false
      = Outcome.ok (Response.json (Json.obj
          [("user", Json.obj [("name", Json.ofOptStr u.name),
                              ("email", Json.str u.email)]),
           ("clientMaxAge", Json.num cma),
           ("csrfToken", Json.str csrf)])) := by
  exact ⟨rfl, by simp [sessionRoute, hget]⟩

theorem session_route_shape_witness :
    sessionRoute 60000 "csrf-1" dbA none false
      = Outcome.ok (Response.json (Json.obj
          [("clientMaxAge", Json.num 60000), ("csrfToken", Json.str "csrf-1")]))
    ∧ sessionRoute 60000 "csrf-1" dbA (some 1) false
      = Outcome.ok (Response.json (Json.obj
          [("user", Json.obj [("name", Json.ofOptStr userA.name),
                              ("email", Json.str userA.email)]),
           ("clientMaxAge", Json.num 60000),
           ("csrfToken", Json.str "csrf-1")])) :=
  session_route_shape 60000 "csrf-1" dbA 1 userA (by decide)

/-- Claim C9: a session whose user reference no record answers — the lookup
errs or the account is gone — makes the session endpoint dereference an
undefined user, a `TypeError` instead of a response. -/
theorem session_route_dangling_crashes (cma : Nat) (csrf : String) (db : Db)
    (uid : Nat) (getErr : Bool)
    (h : (if getErr then none else User.fetch db uid) = none) :
    sessionRoute cma csrf db (some uid) getErr = Outcome.crash := by
  simp [sessionRoute, h]

theorem session_route_dangling_crashes_witness :
    sessionRoute 60000 "csrf-1" dbEmpty (some 1) false = Outcome.crash :=
  session_route_dangling_crashes 60000 "csrf-1" dbEmpty 1 false (by decide)

/-- Claim C6: sign-out always clears the session's user reference — a no-op
when already anonymous — and redirects to the site root. -/
theorem signout_clears_session (s : Option Nat) :
    signoutRoute s = (none, Response.redirect "/") := by
  cases s <;> rfl

/-- Claim C7: the enrichment middleware always calls `next()`, and when the
session has no user, or the fetch errs or returns nothing, it does so without
populating `res.locals.user`. -/
theorem enrich_never_blocks (db : Db) (getErr : Bool) (s : Option Nat) :
    (enrichMiddleware db getErr s).nextCalled = true
    ∧ ((s.bind fun uid => if getErr then none else User.fetch db uid) = none →
        (enrichMiddleware db getErr s).localsUser = none) := by
  cases s with
  | none => exact ⟨rfl, fun _ => rfl⟩
  | some uid =>
    cases hf : (if getErr then none else User.fetch db uid) with
    | none =>
      exact ⟨by simp [enrichMiddleware, hf], fun _ => by
        simp [enrichMiddleware, hf]⟩
    | some u =>
      refine ⟨by simp [enrichMiddleware, hf], fun hc => ?_⟩
      have hc2 : (if getErr then none else User.fetch db uid) = none := hc
      rw [hf] at hc2
      cases hc2

theorem enrich_never_blocks_witness :
    (enrichMiddleware dbEmpty false (some 1)).nextCalled = true
    ∧ (enrichMiddleware dbEmpty false (some 1)).localsUser = none :=
  ⟨(enrich_never_blocks dbEmpty false (some 1)).1,
   (enrich_never_blocks dbEmpty false (some 1)).2 (by decide)⟩

end EmailAuth
